import Mathlib

/-!
Verification of the RBAC core of the Atlas PPM backend, embedded from
backend/app/utils/rbac.py and backend/app/models/user.py: the permission
catalog, the role-permission map, the coarse permission checks and the
resource access-level resolver.
-/

namespace Atlas

/-- UserRole enumeration from backend/app/models/user.py. -/
inductive UserRole
| ADMIN
| PMO_ADMIN
| PORTFOLIO_MANAGER
| PROJECT_MANAGER
| RESOURCE
| FINANCE
| VIEWER
deriving DecidableEq

/-- Permission catalog (class Permission in rbac.py). The four portfolio
CRUD members are written word-swapped here (source names CREATE_PORTFOLIO,
EDIT_PORTFOLIO, DELETE_PORTFOLIO, VIEW_PORTFOLIO); everything else keeps
the source name. -/
inductive Permission
| MANAGE_TENANT
| VIEW_TENANT
| MANAGE_USERS
| VIEW_USERS
| INVITE_USERS
| PORTFOLIO_CREATE
| PORTFOLIO_EDIT
| PORTFOLIO_DELETE
| PORTFOLIO_VIEW
| MANAGE_PORTFOLIO_MEMBERS
| CREATE_PROJECT
| EDIT_PROJECT
| DELETE_PROJECT
| VIEW_PROJECT
| MANAGE_PROJECT_MEMBERS
| APPROVE_PROJECT_CHANGES
| MANAGE_RESOURCES
| VIEW_RESOURCES
| ASSIGN_RESOURCES
| VIEW_RESOURCE_UTILIZATION
| MANAGE_BUDGETS
| VIEW_BUDGETS
| APPROVE_BUDGETS
| VIEW_FINANCIAL_REPORTS
| ENTER_TIME
| APPROVE_TIME
| VIEW_TIME_REPORTS
| MANAGE_RISKS
| VIEW_RISKS
| VIEW_REPORTS
| CREATE_REPORTS
| EXPORT_DATA
| VIEW_AUDIT_LOGS
| MANAGE_INTEGRATIONS
deriving DecidableEq

/-- A role argument as Python callers can supply it: either a member of
the closed UserRole enumeration, or any other value (modelled as a tagged
string) outside the enumeration. -/
inductive RoleArg
| known : UserRole → RoleArg
| unknown : String → RoleArg

/-- Equality test used by the dictionary lookup: two role arguments are
equal only when both are the same enumeration member or both the same
out-of-enumeration value. -/
def roleArgEq (a b : RoleArg) : Bool :=
  match a, b with
  | .known x, .known y => decide (x = y)
  | .unknown x, .unknown y => x == y
  | _, _ => false

instance : BEq RoleArg := ⟨roleArgEq⟩

/-- The ROLE_PERMISSIONS dict literal from rbac.py, as an association
list keyed by the seven enumeration members, each mapped to the literal
permission set written in the source. -/
def ROLE_PERMISSIONS : List (RoleArg × List Permission) :=
  [ (.known .ADMIN,
     [ .MANAGE_TENANT, .VIEW_TENANT, .MANAGE_USERS, .VIEW_USERS,
       .INVITE_USERS, .PORTFOLIO_CREATE, .PORTFOLIO_EDIT,
       .PORTFOLIO_DELETE, .PORTFOLIO_VIEW, .MANAGE_PORTFOLIO_MEMBERS,
       .CREATE_PROJECT, .EDIT_PROJECT, .DELETE_PROJECT, .VIEW_PROJECT,
       .MANAGE_PROJECT_MEMBERS, .APPROVE_PROJECT_CHANGES,
       .MANAGE_RESOURCES, .VIEW_RESOURCES, .ASSIGN_RESOURCES,
       .VIEW_RESOURCE_UTILIZATION, .MANAGE_BUDGETS, .VIEW_BUDGETS,
       .APPROVE_BUDGETS, .VIEW_FINANCIAL_REPORTS, .APPROVE_TIME,
       .VIEW_TIME_REPORTS, .MANAGE_RISKS, .VIEW_RISKS, .VIEW_REPORTS,
       .CREATE_REPORTS, .EXPORT_DATA, .VIEW_AUDIT_LOGS,
       .MANAGE_INTEGRATIONS ]),
    (.known .PMO_ADMIN,
     [ .VIEW_TENANT, .MANAGE_USERS, .VIEW_USERS, .INVITE_USERS,
       .PORTFOLIO_CREATE, .PORTFOLIO_EDIT, .PORTFOLIO_VIEW,
       .MANAGE_PORTFOLIO_MEMBERS, .CREATE_PROJECT, .EDIT_PROJECT,
       .VIEW_PROJECT, .MANAGE_PROJECT_MEMBERS, .APPROVE_PROJECT_CHANGES,
       .MANAGE_RESOURCES, .VIEW_RESOURCES, .ASSIGN_RESOURCES,
       .VIEW_RESOURCE_UTILIZATION, .VIEW_BUDGETS, .APPROVE_BUDGETS,
       .VIEW_FINANCIAL_REPORTS, .APPROVE_TIME, .VIEW_TIME_REPORTS,
       .MANAGE_RISKS, .VIEW_RISKS, .VIEW_REPORTS, .CREATE_REPORTS,
       .EXPORT_DATA ]),
    (.known .PORTFOLIO_MANAGER,
     [ .VIEW_USERS, .PORTFOLIO_CREATE, .PORTFOLIO_EDIT, .PORTFOLIO_VIEW,
       .MANAGE_PORTFOLIO_MEMBERS, .CREATE_PROJECT, .EDIT_PROJECT,
       .VIEW_PROJECT, .MANAGE_PROJECT_MEMBERS, .VIEW_RESOURCES,
       .ASSIGN_RESOURCES, .VIEW_RESOURCE_UTILIZATION, .MANAGE_BUDGETS,
       .VIEW_BUDGETS, .VIEW_FINANCIAL_REPORTS, .APPROVE_TIME,
       .VIEW_TIME_REPORTS, .MANAGE_RISKS, .VIEW_RISKS, .VIEW_REPORTS,
       .CREATE_REPORTS, .EXPORT_DATA ]),
    (.known .PROJECT_MANAGER,
     [ .VIEW_USERS, .PORTFOLIO_VIEW, .EDIT_PROJECT, .VIEW_PROJECT,
       .MANAGE_PROJECT_MEMBERS, .VIEW_RESOURCES, .ASSIGN_RESOURCES,
       .VIEW_RESOURCE_UTILIZATION, .VIEW_BUDGETS,
       .VIEW_FINANCIAL_REPORTS, .APPROVE_TIME, .VIEW_TIME_REPORTS,
       .MANAGE_RISKS, .VIEW_RISKS, .VIEW_REPORTS, .CREATE_REPORTS ]),
    (.known .RESOURCE,
     [ .VIEW_PROJECT, .ENTER_TIME, .VIEW_RISKS, .VIEW_REPORTS ]),
    (.known .FINANCE,
     [ .VIEW_USERS, .PORTFOLIO_VIEW, .VIEW_PROJECT, .MANAGE_BUDGETS,
       .VIEW_BUDGETS, .APPROVE_BUDGETS, .VIEW_FINANCIAL_REPORTS,
       .VIEW_TIME_REPORTS, .VIEW_RISKS, .VIEW_REPORTS, .CREATE_REPORTS,
       .EXPORT_DATA ]),
    (.known .VIEWER,
     [ .PORTFOLIO_VIEW, .VIEW_PROJECT, .VIEW_RESOURCES, .VIEW_BUDGETS,
       .VIEW_RISKS, .VIEW_REPORTS ]) ]

/-- Python dict .get(key, set()) over the association list: first entry
whose key equals the argument, defaulting to the empty set. -/
def dictGet (d : List (RoleArg × List Permission)) (k : RoleArg) :
    List Permission :=
  match d.find? (fun kv => kv.1 == k) with
  | some kv => kv.2
  | none => []

/-- get_user_permissions from rbac.py: ROLE_PERMISSIONS.get(role, set()). -/
def get_user_permissions (role : RoleArg) : List Permission :=
  dictGet ROLE_PERMISSIONS role

/-- user_has_permission from rbac.py: permission in get_user_permissions(role). -/
def user_has_permission (role : RoleArg) (permission : Permission) : Bool :=
  (get_user_permissions role).contains permission

/-- AccessLevel enumeration from rbac.py. -/
inductive AccessLevel
| FULL
| READ_WRITE
| READ_ONLY
| NO_ACCESS
deriving DecidableEq

/-- Numeric rank of an access level, following the spec ordering
no_access < read_only < read_write < full. -/
def AccessLevel.rank : AccessLevel → Nat
  | .FULL => 3
  | .READ_WRITE => 2
  | .READ_ONLY => 1
  | .NO_ACCESS => 0

/-- Python membership test resource_id in grants, where resource_id may
be None (None is never an element of a list of strings). -/
def inList (x : Option String) (l : List String) : Bool :=
  match x with
  | some s => l.contains s
  | none => false

/-- Python equality user_id == resource_owner_id with an Optional owner:
a None owner compares unequal to every string. -/
def eqOwner (user_id : String) (owner : Option String) : Bool :=
  match owner with
  | some o => user_id == o
  | none => false

/-- get_resource_access_level from rbac.py. The two `let` bindings mirror
the `or []` defaulting of the optional grant lists. Inside the
portfolio-manager and project-manager branches, an unrecognized
resource_type falls through every later role test in the source (they all
compare against a different role) and reaches the final
`return AccessLevel.NO_ACCESS`, which the inner else-branches write
directly. -/
def get_resource_access_level
    (user_role : UserRole) (resource_type : String) (user_id : String)
    (resource_owner_id : Option String)
    (portfolio_access : Option (List String))
    (project_access : Option (List String))
    (resource_id : Option String) : AccessLevel :=
  let pa := portfolio_access.getD []
  let pja := project_access.getD []
  match user_role with
  | .ADMIN => .FULL
  | .PMO_ADMIN => .FULL
  | .PORTFOLIO_MANAGER =>
    if resource_type == "portfolio" then
      if inList resource_id pa || eqOwner user_id resource_owner_id then
        .FULL
      else .READ_ONLY
    else if resource_type == "project" then
      if inList resource_id pja || eqOwner user_id resource_owner_id then
        .READ_WRITE
      else .READ_ONLY
    else .NO_ACCESS
  | .PROJECT_MANAGER =>
    if resource_type == "project" then
      if inList resource_id pja || eqOwner user_id resource_owner_id then
        .FULL
      else .READ_ONLY
    else if resource_type == "portfolio" then .READ_ONLY
    else .NO_ACCESS
  | .FINANCE => .READ_WRITE
  | .RESOURCE =>
    if resource_type == "project" && inList resource_id pja then
      .READ_WRITE
    else .READ_ONLY
  | .VIEWER =>
    if (resource_type == "portfolio" && inList resource_id pa)
        || (resource_type == "project" && inList resource_id pja) then
      .READ_ONLY
    else .NO_ACCESS

end Atlas

namespace Atlas

/-- A none owner never equals any acting user id. -/
theorem eqOwner_none (user_id : String) : eqOwner user_id none = false :=
  rfl

/-- C2: admin and pmo_admin resolve to full for every resource type,
user, owner (including none), grant lists (including absent) and
resource id. -/
theorem admin_pmo_full (resource_type user_id : String)
    (owner : Option String) (pa pja : Option (List String))
    (rid : Option String) :
    get_resource_access_level .ADMIN resource_type user_id owner pa pja
      rid = .FULL ∧
    get_resource_access_level .PMO_ADMIN resource_type user_id owner pa
      pja rid = .FULL :=
  ⟨rfl, rfl⟩

/-- C5: the finance role resolves to read_write for every resource type
and every combination of the remaining arguments. -/
theorem finance_read_write (resource_type user_id : String)
    (owner : Option String) (pa pja : Option (List String))
    (rid : Option String) :
    get_resource_access_level .FINANCE resource_type user_id owner pa pja
      rid = .READ_WRITE :=
  rfl

/-- C3: a portfolio manager gets full on a portfolio exactly when the
resource id is in the portfolio grant list or the acting user owns it,
read_only when both fail; on a project the same disjunction over the
project grant list yields read_write, else read_only. -/
theorem portfolio_manager_levels (user_id : String)
    (owner : Option String) (pa pja : Option (List String))
    (rid : Option String) :
    (get_resource_access_level .PORTFOLIO_MANAGER "portfolio" user_id
        owner pa pja rid = .FULL ↔
      (inList rid (pa.getD []) = true ∨ eqOwner user_id owner = true)) ∧
    (get_resource_access_level .PORTFOLIO_MANAGER "portfolio" user_id
        owner pa pja rid = .READ_ONLY ↔
      ¬(inList rid (pa.getD []) = true ∨ eqOwner user_id owner = true)) ∧
    (get_resource_access_level .PORTFOLIO_MANAGER "project" user_id
        owner pa pja rid = .READ_WRITE ↔
      (inList rid (pja.getD []) = true ∨ eqOwner user_id owner = true)) ∧
    (get_resource_access_level .PORTFOLIO_MANAGER "project" user_id
        owner pa pja rid = .READ_ONLY ↔
      ¬(inList rid (pja.getD []) = true ∨ eqOwner user_id owner = true)) := by
  cases h1 : inList rid (pa.getD []) <;>
    cases h2 : inList rid (pja.getD []) <;>
      cases h3 : eqOwner user_id owner <;>
        simp [get_resource_access_level, h1, h2, h3]

/-- C4: a project manager gets full on a project exactly when the
resource id is in the project grant list or the acting user owns it,
read_only when both fail; on a portfolio the result is always
read_only. -/
theorem project_manager_levels (user_id : String)
    (owner : Option String) (pa pja : Option (List String))
    (rid : Option String) :
    (get_resource_access_level .PROJECT_MANAGER "project" user_id owner
        pa pja rid = .FULL ↔
      (inList rid (pja.getD []) = true ∨ eqOwner user_id owner = true)) ∧
    (get_resource_access_level .PROJECT_MANAGER "project" user_id owner
        pa pja rid = .READ_ONLY ↔
      ¬(inList rid (pja.getD []) = true ∨ eqOwner user_id owner = true)) ∧
    get_resource_access_level .PROJECT_MANAGER "portfolio" user_id owner
      pa pja rid = .READ_ONLY := by
  cases h2 : inList rid (pja.getD []) <;>
    cases h3 : eqOwner user_id owner <;>
      simp [get_resource_access_level, h2, h3]

/-- C7: a viewer gets read_only exactly when the resource type is
portfolio and the id is in the portfolio grant list, or the type is
project and the id is in the project grant list; in every other case the
result is no_access. -/
theorem viewer_levels (resource_type user_id : String)
    (owner : Option String) (pa pja : Option (List String))
    (rid : Option String) :
    (get_resource_access_level .VIEWER resource_type user_id owner pa pja
        rid = .READ_ONLY ↔
      ((resource_type = "portfolio" ∧ inList rid (pa.getD []) = true) ∨
       (resource_type = "project" ∧ inList rid (pja.getD []) = true))) ∧
    (get_resource_access_level .VIEWER resource_type user_id owner pa pja
        rid = .NO_ACCESS ↔
      ¬((resource_type = "portfolio" ∧ inList rid (pa.getD []) = true) ∨
        (resource_type = "project" ∧ inList rid (pja.getD []) = true))) := by
  cases hpf : (resource_type == "portfolio") <;>
    cases hpj : (resource_type == "project") <;>
      cases hg : inList rid (pa.getD []) <;>
        cases hg2 : inList rid (pja.getD []) <;>
          simp_all [get_resource_access_level, beq_iff_eq]

/-- C6: a null owner never matches any acting user, and replacing any
owner argument by none never raises the resolved access level, for every
role and resource type. -/
theorem null_owner_never_raises (role : UserRole)
    (resource_type user_id : String) (pa pja : Option (List String))
    (rid : Option String) (owner : Option String) :
    eqOwner user_id none = false ∧
    (get_resource_access_level role resource_type user_id none pa pja
        rid).rank ≤
      (get_resource_access_level role resource_type user_id owner pa pja
        rid).rank := by
  refine ⟨rfl, ?_⟩
  cases role <;>
    cases hpf : (resource_type == "portfolio") <;>
      cases hpj : (resource_type == "project") <;>
        cases hg : inList rid (pa.getD []) <;>
          cases hg2 : inList rid (pja.getD []) <;>
            cases ho : eqOwner user_id owner <;>
              simp [get_resource_access_level, eqOwner_none, hpf, hpj,
                hg, hg2, ho, AccessLevel.rank]

/-- C8: the permission lookup is total and fails closed: any role value
outside the enumeration maps to the empty permission set, so every
permission check on it returns false. -/
theorem unknown_role_fails_closed (s : String) (p : Permission) :
    get_user_permissions (.unknown s) = [] ∧
    user_has_permission (.unknown s) p = false :=
  ⟨rfl, rfl⟩

/-- C9: admin does not dominate every role: the resource role holds
ENTER_TIME while admin does not. -/
theorem admin_not_superset :
    user_has_permission (.known .RESOURCE) .ENTER_TIME = true ∧
    user_has_permission (.known .ADMIN) .ENTER_TIME = false := by
  decide

/-- C10: grant lists of the other resource type never influence the
result: with resource type project the portfolio grant list is
irrelevant, and with resource type portfolio the project grant list is
irrelevant. -/
theorem cross_grants_no_interference (role : UserRole) (user_id : String)
    (owner : Option String) (pa pa2 pja pja2 : Option (List String))
    (rid : Option String) :
    get_resource_access_level role "project" user_id owner pa pja rid =
      get_resource_access_level role "project" user_id owner pa2 pja
        rid ∧
    get_resource_access_level role "portfolio" user_id owner pa pja rid =
      get_resource_access_level role "portfolio" user_id owner pa pja2
        rid := by
  cases role <;> exact ⟨rfl, rfl⟩

/-- C1 counterexample: finance is neither admin nor pmo_admin, "task" is
an unrecognized resource type, yet the resolver returns read_write there,
not no_access. -/
theorem finance_unknown_type_not_no_access :
    (UserRole.FINANCE ≠ UserRole.ADMIN ∧
     UserRole.FINANCE ≠ UserRole.PMO_ADMIN) ∧
    ("task" ≠ "portfolio" ∧ "task" ≠ "project") ∧
    get_resource_access_level .FINANCE "task" "u1" (some "u2")
      (some []) (some []) (some "r1") ≠ .NO_ACCESS := by
  decide

/-- C1 amended: for every role other than admin, pmo_admin, finance and
resource, an unrecognized resource type resolves to no_access (finance
resolves to read_write and resource to read_only there instead). -/
theorem unknown_type_no_access (role : UserRole)
    (h1 : role ≠ .ADMIN) (h2 : role ≠ .PMO_ADMIN) (h3 : role ≠ .FINANCE)
    (h4 : role ≠ .RESOURCE) (resource_type user_id : String)
    (owner : Option String) (pa pja : Option (List String))
    (rid : Option String) (hp : resource_type ≠ "portfolio")
    (hj : resource_type ≠ "project") :
    get_resource_access_level role resource_type user_id owner pa pja
      rid = .NO_ACCESS := by
  cases role <;> simp_all [get_resource_access_level]

/-- Witness for the amended C1 at a concrete viewer call with resource
type "task". -/
theorem unknown_type_no_access_witness :
    get_resource_access_level .VIEWER "task" "u1" (some "u2")
      (some ["pf1"]) (some ["p1"]) (some "r1") = .NO_ACCESS :=
  unknown_type_no_access .VIEWER (by decide) (by decide) (by decide)
    (by decide) "task" "u1" (some "u2") (some ["pf1"]) (some ["p1"])
    (some "r1") (by decide) (by decide)

end Atlas
